import Mathlib

/-!
Verification of the caching and observability core of the multi_agent_crew
repository, as a shallow embedding in Lean.

Source files embedded here:
* `src/multi_agent_crew/tools/base/cached_tool.py` (class `CachedTool`)
* `src/multi_agent_crew/core/config.py` (class `Settings`)
* `src/multi_agent_crew/core/observability/factory.py` (class `ObservabilityFactory`)
* `src/multi_agent_crew/core/observability/system_logger.py` (class `SystemLoggerBackend`)
* `src/multi_agent_crew/core/observability/prometheus.py` (class `PrometheusBackend`)
* `src/multi_agent_crew/core/observability/__init__.py` (function `get_observability`)
* `src/multi_agent_crew/tools/search/keyword_search_tool.py` (class `KeywordSearchTool`)

Timestamps (`datetime.now()`) are modelled as integers handed to each
operation explicitly; `timedelta(seconds=d)` comparison becomes integer
comparison of the elapsed time with `d`.  Python exceptions are modelled by
`Except PyExc`; side effects on the observability backend (metric samples,
span open/close, Prometheus gauge and histogram operations) are modelled as
an explicit event list returned next to the result.
-/

/-- Model of a Python exception value: its type name (`type(e).__name__`)
and its message (`str(e)`). -/
structure PyExc where
  typeName : String
  msg : String
deriving DecidableEq, Repr

/-- Embeds `Settings` from `core/config.py`: the pydantic fields with their
declared defaults.  (`extra="ignore"` and the env-file loading are not part
of any claim; the defaults are what the claims reference.) -/
structure Settings where
  observability_backend : String := "system"
  prometheus_port : Int := 8000
  log_level : String := "INFO"
  openrouter_api_key : Option String := none
  openai_api_key : Option String := none
  default_llm_model : String := "openrouter/google/gemini-2.5-flash-lite"
  gsc_credentials_path : String := "credentials.json"
  gsc_token_path : String := "token.json"
  enable_caching : Bool := true
  cache_ttl_seconds : Int := 300
deriving DecidableEq, Repr

/-- The module-level `settings = Settings()` instance of `core/config.py`,
built entirely from field defaults (no environment overrides). -/
def settingsDefault : Settings := {}

/-- Embeds `CachedTool._cache_duration: ClassVar[int] = settings.cache_ttl_seconds`
(line 16 of `cached_tool.py`): the base class's TTL, read from settings. -/
def cachedToolCacheDuration : Int := settingsDefault.cache_ttl_seconds

/-- The process-wide cache dictionary `Dict[str, Tuple[Any, datetime]]`:
a map from key to the stored value paired with its storage timestamp.
In the source this dictionary is the single `ClassVar` `CachedTool._cache`,
initialised once on the base class `CachedTool` and never shadowed by any
subclass, so every subclass reads and mutates this same dictionary
(`self._cache[key] = ...` mutates the shared object). -/
def Cache (α : Type) := String → Option (α × Int)

/-- The initial empty cache dictionary. -/
def Cache.empty {α : Type} : Cache α := fun _ => none

/-- Python dict assignment `cache[key] = v`. -/
def Cache.insert {α : Type} (c : Cache α) (key : String) (v : α × Int) : Cache α :=
  fun k => if k = key then some v else c k

/-- Events emitted on the observability backend, in emission order.
`metric` embeds `record_metric(name, value, tags)`; `traceStart`/`traceEnd`
embed the `SystemLoggerBackend.trace` span log lines; `gaugeInc`/`gaugeDec`
are the `PrometheusBackend` active-operations gauge `inc`/`dec`;
`counterInc` is `metrics_counter.labels(operation, agent, status).inc()`;
`histObserve` is `duration_histogram.labels(operation, agent).observe(...)`. -/
inductive Event where
  | metric (name : String) (value : Int) (tags : List (String × String))
  | traceStart (name : String)
  | traceEnd (name : String)
  | gaugeInc (agent : String)
  | gaugeDec (agent : String)
  | counterInc (operation : String) (agent : String) (status : String)
  | histObserve (operation : String) (agent : String)
deriving DecidableEq, Repr

/-- Embeds `CachedTool._get_from_cache(key)` (lines 30-42 of
`cached_tool.py`).  Parameters that the method reads from ambient state are
explicit: `enableCaching` is `settings.enable_caching`, `c` the shared
cache dict, `cacheDuration` the reading class's `_cache_duration`,
`toolName` is `self.name`, `now` is `datetime.now()` at lookup time.
Returns the looked-up value (`None` modelled as `none`) and the metric
events recorded during the call, in order.  Control flow of the source:
if caching is disabled, return `None` immediately (no metric); else if the
key is present and strictly fresh, record one `tool_cache_hit` and return
the data; otherwise record one `tool_cache_miss` and return `None`. -/
def getFromCache {α : Type} (enableCaching : Bool) (c : Cache α)
    (cacheDuration : Int) (toolName : String) (key : String) (now : Int) :
    Option α × List Event :=
  if enableCaching = false then
    (none, [])
  else
    match c key with
    | some (data, timestamp) =>
        if now - timestamp < cacheDuration then
          (some data, [Event.metric "tool_cache_hit" 1 [("tool", toolName)]])
        else
          (none, [Event.metric "tool_cache_miss" 1 [("tool", toolName)]])
    | none =>
        (none, [Event.metric "tool_cache_miss" 1 [("tool", toolName)]])

/-- Embeds `CachedTool._save_to_cache(key, data)` (lines 44-47 of
`cached_tool.py`): when caching is enabled, store `(data, now)` under
`key` in the shared dict; otherwise leave the dict unchanged. -/
def saveToCache {α : Type} (enableCaching : Bool) (c : Cache α)
    (key : String) (data : α) (now : Int) : Cache α :=
  if enableCaching then c.insert key (data, now) else c

/-- C1: TTL correctness of the cache.  With caching enabled, after
`_save_to_cache(k, v)` at time `t0`, a `_get_from_cache(k)` at time `t`
with elapsed time `t - t0` strictly below the reading tool's
`_cache_duration` returns `v`; at elapsed time at or above the TTL it
returns a miss (`none`).  The comparison in the source is strict
(`datetime.now() - timestamp < timedelta(seconds=self._cache_duration)`),
and the base-class default TTL is `settings.cache_ttl_seconds = 300`. -/
theorem ttl_correctness {α : Type} (c : Cache α) (dur : Int)
    (tool key : String) (v : α) (t0 t : Int) :
    (t - t0 < dur →
      (getFromCache true (saveToCache true c key v t0) dur tool key t).1 = some v) ∧
    (dur ≤ t - t0 →
      (getFromCache true (saveToCache true c key v t0) dur tool key t).1 = none) ∧
    cachedToolCacheDuration = 300 := by
  refine ⟨fun h => ?_, fun h => ?_, rfl⟩
  · simp [getFromCache, saveToCache, Cache.insert, h]
  · simp [getFromCache, saveToCache, Cache.insert, not_lt.mpr h]

/-- Witness for C1 at the spec's scenario: TTL 300, store `"18C"` under
`"weather:london"` at time 0; a lookup at time 250 hits and returns
`"18C"`, a lookup at time 350 misses. -/
theorem ttl_correctness_witness :
    (getFromCache true (saveToCache true (Cache.empty (α := String))
        "weather:london" "18C" 0) 300 "WeatherTool" "weather:london" 250).1
      = some "18C" ∧
    (getFromCache true (saveToCache true (Cache.empty (α := String))
        "weather:london" "18C" 0) 300 "WeatherTool" "weather:london" 350).1
      = none :=
  ⟨(ttl_correctness Cache.empty 300 "WeatherTool" "weather:london" "18C" 0 250).1
      (by decide),
   ((ttl_correctness Cache.empty 300 "WeatherTool" "weather:london" "18C" 0 350).2).1
      (by decide)⟩

/-- Model of one tool class deriving from `CachedTool`: its `name` field and
its (possibly overridden) `_cache_duration` class attribute.  Crucially, the
`_cache` dictionary is NOT part of this structure: in the source `_cache`
is a `ClassVar` initialised once on the base class `CachedTool` and never
shadowed by any subclass (`GSCTool` overrides only `_cache_duration`), so
all subclasses read and mutate the one shared dictionary. -/
structure ToolClass where
  name : String
  cacheDuration : Int
deriving DecidableEq, Repr

/-- Embeds `GSCTool` (`tools/data/gsc_tool.py`): overrides
`_cache_duration = 86400`. -/
def gscToolClass : ToolClass := ⟨"GSCTool", 86400⟩

/-- Embeds `WeatherTool` (`tools/data/weather_tool.py`): inherits the base
class's `_cache_duration`. -/
def weatherToolClass : ToolClass := ⟨"WeatherTool", cachedToolCacheDuration⟩

/-- Embeds `KeywordSearchTool` (`tools/search/keyword_search_tool.py`):
inherits the base class's `_cache_duration`. -/
def keywordSearchToolClass : ToolClass := ⟨"KeywordSearchTool", cachedToolCacheDuration⟩

/-- A lookup `self._get_from_cache(key)` performed on an instance of tool
class `T`: it reads the shared dictionary `c` with `T`'s own
`_cache_duration` and records metrics tagged with `T`'s name. -/
def toolGetFromCache {α : Type} (T : ToolClass) (enabled : Bool) (c : Cache α)
    (key : String) (now : Int) : Option α × List Event :=
  getFromCache enabled c T.cacheDuration T.name key now

/-- A store `self._save_to_cache(key, data)` performed on an instance of
tool class `T`: `self._cache[key] = (data, datetime.now())` mutates the one
dictionary shared by every `CachedTool` subclass, so the writing class is
irrelevant to where the entry lands. -/
def toolSaveToCache {α : Type} (_T : ToolClass) (enabled : Bool) (c : Cache α)
    (key : String) (data : α) (now : Int) : Cache α :=
  saveToCache enabled c key data now

/-- C3 counterexample: the namespace-isolation claim is false.  A value
stored through `GSCTool`'s `_save_to_cache` under key `"shared-key"` IS
returned by `WeatherTool`'s `_get_from_cache` of the identical key (caching
enabled, lookup 10 seconds after the store, well within the TTL), because
`_cache` is one `ClassVar` dictionary on the base class shared by every
subclass. -/
theorem cache_namespace_isolation_counterexample :
    (toolGetFromCache weatherToolClass true
        (toolSaveToCache gscToolClass true (Cache.empty (α := String))
          "shared-key" "v" 0)
        "shared-key" 10).1 = some "v" := by decide

/-- C3 amended: all `CachedTool` subclasses share the single base-class
cache dictionary; a value stored by any tool class `T1` under key `k` is
returned by any tool class `T2`'s lookup of `k` (caching enabled, elapsed
time strictly below `T2`'s own `_cache_duration`).  Isolation across tool
types exists only by the key-prefix convention (`"gsc:..."`,
`"weather:..."`), not by per-class namespaces. -/
theorem cache_shared_across_tool_classes {α : Type} (T1 T2 : ToolClass)
    (c : Cache α) (key : String) (v : α) (t0 t : Int)
    (h : t - t0 < T2.cacheDuration) :
    (toolGetFromCache T2 true (toolSaveToCache T1 true c key v t0) key t).1
      = some v := by
  simp [toolGetFromCache, toolSaveToCache, getFromCache, saveToCache,
    Cache.insert, h]

/-- Witness for the amended C3: store via `GSCTool`, read via `WeatherTool`
10 seconds later (WeatherTool's TTL is 300). -/
theorem cache_shared_across_tool_classes_witness :
    (0 : Int) - 0 + 10 < weatherToolClass.cacheDuration ∧
    (toolGetFromCache weatherToolClass true
        (toolSaveToCache gscToolClass true (Cache.empty (α := String)) "k" "v" 0)
        "k" 10).1 = some "v" :=
  ⟨by decide,
   cache_shared_across_tool_classes gscToolClass weatherToolClass
     Cache.empty "k" "v" 0 10 (by decide)⟩

/-- C4 counterexample: the claim that every lookup records exactly one
cache-hit or cache-miss metric even when caching is globally disabled is
false.  With `settings.enable_caching = False`, `_get_from_cache` returns
`None` on its first line without recording any metric at all. -/
theorem cache_lookup_metric_counterexample :
    ¬ ((getFromCache (α := String) false Cache.empty 300 "WeatherTool"
          "k" 0).2.length = 1) := by decide

/-- C4 amended: `_get_from_cache(key)` returns the stored value iff caching
is globally enabled and the entry exists and is unexpired; when caching is
enabled it records exactly one metric per lookup — `tool_cache_hit` tagged
with the tool name on a hit, `tool_cache_miss` on a miss; when caching is
disabled it returns `None` immediately and records no metric (disabled
caching is observable as silent guaranteed misses, with no instrumentation). -/
theorem cache_lookup_contract {α : Type} (enabled : Bool) (c : Cache α)
    (dur : Int) (tool key : String) (t : Int) :
    (enabled = false →
      (getFromCache enabled c dur tool key t).1 = none ∧
      (getFromCache enabled c dur tool key t).2 = []) ∧
    (enabled = true →
      ((getFromCache enabled c dur tool key t).1.isSome →
        (getFromCache enabled c dur tool key t).2
          = [Event.metric "tool_cache_hit" 1 [("tool", tool)]]) ∧
      ((getFromCache enabled c dur tool key t).1 = none →
        (getFromCache enabled c dur tool key t).2
          = [Event.metric "tool_cache_miss" 1 [("tool", tool)]]) ∧
      (∀ v ts, c key = some (v, ts) → t - ts < dur →
        (getFromCache enabled c dur tool key t).1 = some v) ∧
      ((getFromCache enabled c dur tool key t).1.isSome →
        ∃ v ts, c key = some (v, ts) ∧ t - ts < dur)) := by
  constructor
  · rintro rfl
    simp [getFromCache]
  · rintro rfl
    rcases hck : c key with _ | ⟨v, ts⟩
    · refine ⟨?_, ?_, ?_, ?_⟩
      · intro hs; simp [getFromCache, hck] at hs
      · intro _; simp [getFromCache, hck]
      · intro v ts hvts _; cases hvts
      · intro hs; simp [getFromCache, hck] at hs
    · by_cases hf : t - ts < dur
      · refine ⟨?_, ?_, ?_, ?_⟩
        · intro _; simp [getFromCache, hck, hf]
        · intro hnone; simp [getFromCache, hck, hf] at hnone
        · intro v2 ts2 hvts _
          injection hvts with hp
          injection hp with h1 h2
          subst h1; subst h2
          simp [getFromCache, hck, hf]
        · intro _; exact ⟨v, ts, rfl, hf⟩
      · refine ⟨?_, ?_, ?_, ?_⟩
        · intro hs; simp [getFromCache, hck, hf] at hs
        · intro _; simp [getFromCache, hck, hf]
        · intro v2 ts2 hvts hlt
          injection hvts with hp
          injection hp with h1 h2
          subst h2
          exact absurd hlt hf
        · intro hs; simp [getFromCache, hck, hf] at hs

/-- Witness for the amended C4: with caching disabled, a lookup of a key
that is present and fresh still returns `None` and records nothing. -/
theorem cache_lookup_contract_witness :
    (getFromCache false ((Cache.empty (α := String)).insert "k" ("v", 0))
        300 "WeatherTool" "k" 10).1 = none ∧
    (getFromCache false ((Cache.empty (α := String)).insert "k" ("v", 0))
        300 "WeatherTool" "k" 10).2 = [] :=
  (cache_lookup_contract false ((Cache.empty (α := String)).insert "k" ("v", 0))
      300 "WeatherTool" "k" 10).1 rfl

/-- Embeds `SystemLoggerBackend.trace` (lines 66-80 of `system_logger.py`).
The context manager logs a span-start line, runs the enclosed body
(modelled as its completed outcome `body.1` together with the events
`body.2` it emitted), and in a `finally` block logs the span-end line with
the measured duration — so the end record is emitted exactly once whether
the body returned or raised, and a raised exception propagates unchanged
after the bookkeeping. -/
def systemLoggerTrace {α : Type} (name : String)
    (body : Except PyExc α × List Event) : Except PyExc α × List Event :=
  (body.1, Event.traceStart name :: body.2 ++ [Event.traceEnd name])

/-- Embeds `PrometheusBackend.trace` (lines 90-126 of `prometheus.py`).
When `prometheus_client` was unavailable (`_prometheus_available = False`)
it delegates to the fallback `SystemLoggerBackend.trace`.  Otherwise it:
increments the active-operations gauge for `attributes.get('agent',
'unknown')`; runs the body inside the fallback span; records a
success-or-error counter according to the outcome (the error path
re-raises); and in a `finally` block observes the duration histogram and
decrements the gauge — both exactly once on every exit path. -/
def prometheusTrace {α : Type} (promAvailable : Bool) (name : String)
    (attributes : List (String × String))
    (body : Except PyExc α × List Event) : Except PyExc α × List Event :=
  if promAvailable = false then
    systemLoggerTrace name body
  else
    let agent := (attributes.lookup "agent").getD "unknown"
    let inner := systemLoggerTrace name body
    let status := match inner.1 with
      | Except.ok _ => "success"
      | Except.error _ => "error"
    (inner.1,
      Event.gaugeInc agent :: inner.2 ++
        [Event.counterInc name agent status,
         Event.histObserve name agent,
         Event.gaugeDec agent])

/-- Embeds `CachedTool._run_with_observability(func, *args)` (lines 49-58
of `cached_tool.py`), with the wrapped call `func(*args)` modelled by its
outcome `work`.  Inside a span named `tool_run_<toolname>` on the
observability backend (the system-logger backend — see the C9 analysis):
on success record one `tool_run_success` metric and return the result
unchanged; on an exception record one `tool_run_error` metric tagged with
the exception's type name and re-raise the same exception. -/
def runWithObservability {α : Type} (toolName : String)
    (work : Except PyExc α) : Except PyExc α × List Event :=
  systemLoggerTrace ("tool_run_" ++ toolName)
    (match work with
     | Except.ok r =>
         (Except.ok r, [Event.metric "tool_run_success" 1 [("tool", toolName)]])
     | Except.error e =>
         (Except.error e,
           [Event.metric "tool_run_error" 1
             [("tool", toolName), ("error", e.typeName)]]))

/-- C5: error transparency of the execution wrapper.  The wrapper's result
is exactly the wrapped work's outcome (same value on success, the same
unmodified exception on failure), and the emitted events are exactly the
span plus one `tool_run_error` metric tagged with the exception's type
name on failure, or the span plus one `tool_run_success` metric on
success. -/
theorem error_transparency {α : Type} (toolName : String)
    (work : Except PyExc α) :
    (runWithObservability toolName work).1 = work ∧
    (∀ e : PyExc, work = Except.error e →
      (runWithObservability toolName work).2 =
        [Event.traceStart ("tool_run_" ++ toolName),
         Event.metric "tool_run_error" 1
           [("tool", toolName), ("error", e.typeName)],
         Event.traceEnd ("tool_run_" ++ toolName)]) ∧
    (∀ r : α, work = Except.ok r →
      (runWithObservability toolName work).2 =
        [Event.traceStart ("tool_run_" ++ toolName),
         Event.metric "tool_run_success" 1 [("tool", toolName)],
         Event.traceEnd ("tool_run_" ++ toolName)]) := by
  rcases work with r | e <;>
    refine ⟨rfl, ?_, ?_⟩ <;> intro x hx <;> cases hx <;>
      simp [runWithObservability, systemLoggerTrace]

/-- Witness for C5: a `ToolError` raised by the work is re-raised
unchanged and recorded as a `tool_run_error` metric tagged with the tool
name and the exception type name. -/
theorem error_transparency_witness :
    (runWithObservability "WeatherTool"
        (Except.error (α := String) ⟨"ToolError", "boom"⟩)).1
      = Except.error ⟨"ToolError", "boom"⟩ ∧
    (runWithObservability "WeatherTool"
        (Except.error (α := String) ⟨"ToolError", "boom"⟩)).2
      = [Event.traceStart "tool_run_WeatherTool",
         Event.metric "tool_run_error" 1
           [("tool", "WeatherTool"), ("error", "ToolError")],
         Event.traceEnd "tool_run_WeatherTool"] :=
  ⟨(error_transparency "WeatherTool"
      (Except.error (α := String) ⟨"ToolError", "boom"⟩)).1,
   (error_transparency "WeatherTool"
      (Except.error (α := String) ⟨"ToolError", "boom"⟩)).2.1
     ⟨"ToolError", "boom"⟩ rfl⟩

/-- Helper: the last element of a nonempty list ending in `[b]`. -/
theorem getLast?_cons_append_singleton {α : Type} (a b : α) (l : List α) :
    (a :: (l ++ [b])).getLast? = some b := by
  rw [← List.cons_append, List.getLast?_concat]

/-- Helper: the last element of a list ending in a four-element block. -/
theorem getLast?_cons_append_four {α : Type} (a b c d e : α) (l : List α) :
    (a :: (l ++ [b, c, d, e])).getLast? = some e := by
  rw [show [b, c, d, e] = [b, c, d] ++ [e] from rfl, ← List.append_assoc,
    ← List.cons_append, List.getLast?_concat]

/-- C7: span closure on every exit path.  For the system-logger span: the
enclosed outcome (normal result or exception) is propagated unchanged, the
span-end record for the span's name is emitted exactly once more than the
body itself emitted, and it is the last event.  For the Prometheus span
(metric library available): the outcome is likewise propagated unchanged,
and the active-operations gauge decrement and the duration-histogram
observation each occur exactly once more than in the body, with the gauge
decrement as the final event; with the library unavailable the span
delegates to the fallback.  All of this holds whether the body's outcome
is a normal return or a raised exception. -/
theorem span_closure {α : Type} (name : String)
    (attrs : List (String × String)) (body : Except PyExc α × List Event) :
    ((systemLoggerTrace name body).1 = body.1 ∧
      (systemLoggerTrace name body).2.count (Event.traceEnd name)
        = body.2.count (Event.traceEnd name) + 1 ∧
      (systemLoggerTrace name body).2.getLast? = some (Event.traceEnd name)) ∧
    ((prometheusTrace false name attrs body).1 = body.1) ∧
    ((prometheusTrace true name attrs body).1 = body.1 ∧
      (prometheusTrace true name attrs body).2.count
          (Event.gaugeDec ((attrs.lookup "agent").getD "unknown"))
        = body.2.count
            (Event.gaugeDec ((attrs.lookup "agent").getD "unknown")) + 1 ∧
      (prometheusTrace true name attrs body).2.count
          (Event.histObserve name ((attrs.lookup "agent").getD "unknown"))
        = body.2.count
            (Event.histObserve name ((attrs.lookup "agent").getD "unknown")) + 1 ∧
      (prometheusTrace true name attrs body).2.getLast?
        = some (Event.gaugeDec ((attrs.lookup "agent").getD "unknown"))) := by
  rcases body with ⟨outcome, evs⟩
  rcases outcome with r | e <;>
    · simp [systemLoggerTrace, prometheusTrace, List.count_append,
        List.count_cons]
      exact ⟨getLast?_cons_append_singleton _ _ _,
        getLast?_cons_append_four _ _ _ _ _ _⟩

/-- Model of a constructed observability backend instance.  The
`systemLogger` constructor carries the `log_level` string the instance was
built with; `prometheus` carries the configured port and whether the
metric library initialised (`_prometheus_available`); `grafana` and
`datadog` stand for the backends whose modules the repository does not
contain. -/
inductive Backend where
  | systemLogger (logLevel : String)
  | prometheus (port : Int) (promAvailable : Bool)
  | grafana
  | datadog
deriving DecidableEq, Repr

/-- Python `str.lower()`, character by character (the strings involved are
ASCII backend-kind names). -/
def pyLower (s : String) : String := String.mk (s.data.map Char.toLower)

/-- Python `str.upper()`, character by character (the strings involved are
ASCII logging-level names). -/
def pyUpper (s : String) : String := String.mk (s.data.map Char.toUpper)

/-- Keyword arguments passed to `ObservabilityFactory.create` and forwarded
to the backend constructors: the keywords the constructors in the source
inspect.  `logLevel` is the `log_level` keyword when present (consumed by
`SystemLoggerBackend.__init__`; a `TypeError` for
`PrometheusBackend.__init__`, whose only parameter is `port`); `port` is
the `port` keyword when present. -/
structure Kwargs where
  logLevel : Option String := none
  port : Option Int := none
deriving DecidableEq, Repr

/-- The uppercase attributes of Python's `logging` module that are valid
level values: `getattr(logging, log_level.upper())` succeeds and
`Logger.setLevel` accepts the result exactly for these names. -/
def loggingLevelNames : List String :=
  ["CRITICAL", "FATAL", "ERROR", "WARN", "WARNING", "INFO", "DEBUG", "NOTSET"]

/-- Embeds `SystemLoggerBackend.__init__(log_level="INFO", **kwargs)`
(lines 15-38 of `system_logger.py`).  The constructor runs
`self.logger.setLevel(getattr(logging, log_level.upper()))`: when the
uppercased level name is not a usable `logging` level this raises
(an `AttributeError` from `getattr` for a missing attribute; the model
collapses the rarer `setLevel` `ValueError` for a non-level attribute into
the same failure).  Every other step (handler setup, in-memory metrics
dict) cannot fail.  All further keyword arguments are absorbed by
`**kwargs` and ignored. -/
def systemLoggerInit (kw : Kwargs) : Except PyExc Backend :=
  let lvl := kw.logLevel.getD "INFO"
  if pyUpper lvl ∈ loggingLevelNames then
    Except.ok (Backend.systemLogger lvl)
  else
    Except.error
      ⟨"AttributeError", "module logging has no attribute " ++ pyUpper lvl⟩

/-- Embeds the backend-construction logic of
`ObservabilityFactory.create(backend, **kwargs)` (lines 17-73 of
`factory.py`) for an empty singleton slot.  `attempt` stands for the
outcome of the `try` block that constructs the requested
prometheus/grafana/datadog backend (an environment-dependent computation:
module import, metric registration, port binding); its exception, if any,
is caught by the `except Exception` clause (a warning is logged), after
which control falls through to the terminal, unguarded
`SystemLoggerBackend(**kwargs)` call.  A `backend` string other than the
three recognised kinds (after `.lower()`) goes straight to that terminal
call. -/
def factoryConstruct (backend : String) (kw : Kwargs)
    (attempt : Except PyExc Backend) : Except PyExc Backend :=
  let bk := pyLower backend
  if bk = "prometheus" ∨ bk = "grafana" ∨ bk = "datadog" then
    match attempt with
    | Except.ok b => Except.ok b
    | Except.error _ => systemLoggerInit kw
  else
    systemLoggerInit kw

/-- Embeds `ObservabilityFactory.create` together with the singleton slot
`_instance`.  If an instance exists it is returned unconditionally (lines
37-38: `if cls._instance is not None: return cls._instance`), ignoring
every argument; otherwise the requested backend is constructed, and each
success path assigns `cls._instance` before returning it.  The result
pairs the returned backend with the new `_instance` value, or is the
exception when `create` itself raises (in which case `_instance` stays
empty). -/
def factoryCreate (inst : Option Backend) (backend : String) (kw : Kwargs)
    (attempt : Except PyExc Backend) : Except PyExc (Backend × Option Backend) :=
  match inst with
  | some b => Except.ok (b, some b)
  | none =>
      match factoryConstruct backend kw attempt with
      | Except.ok b => Except.ok (b, some b)
      | Except.error e => Except.error e

/-- C2: the fallback-totality claim fails on the code.  The terminal
`SystemLoggerBackend(**kwargs)` call in `ObservabilityFactory.create` is
not wrapped in any `try`, and `SystemLoggerBackend.__init__` CAN fail:
with no existing instance, `create("system", log_level="verbose")` runs
`getattr(logging, "VERBOSE")`, which raises `AttributeError` out of
`create` — contradicting the code's own docstring and comment that the
system logger "always works".  This theorem evaluates the embedded factory
at that failing input. -/
theorem factory_fallback_code_bug :
    factoryCreate none "system" { logLevel := some "verbose" }
        (Except.ok (Backend.systemLogger "INFO"))
      = Except.error
          ⟨"AttributeError", "module logging has no attribute VERBOSE"⟩ := by
  rfl

/-- C6: singleton stability.  If a first `create` call (on the empty
singleton slot) returned instance `i` leaving state `st`, then `st` holds
exactly `i`, and any second `create` call — with any backend string, any
keyword arguments and any outcome of the risky constructor — returns the
very same instance `i` and leaves the state unchanged. -/
theorem singleton_stability (b1 b2 : String) (kw1 kw2 : Kwargs)
    (a1 a2 : Except PyExc Backend) (i : Backend) (st : Option Backend)
    (h : factoryCreate none b1 kw1 a1 = Except.ok (i, st)) :
    st = some i ∧
    factoryCreate st b2 kw2 a2 = Except.ok (i, st) := by
  have hst : st = some i := by
    unfold factoryCreate at h
    dsimp only at h
    rcases hb : factoryConstruct b1 kw1 a1 with e | x <;> rw [hb] at h
    · simp at h
    · simp only [Except.ok.injEq, Prod.mk.injEq] at h
      rcases h with ⟨rfl, rfl⟩
      rfl
  subst hst
  exact ⟨rfl, rfl⟩

/-- Witness for C6: a first `create("system")` with default kwargs returns
the default system-logger backend; a second `create("prometheus",
port=9000)` whose risky constructor would even succeed still returns the
first instance and ignores its arguments. -/
theorem singleton_stability_witness :
    factoryCreate none "system" {} (Except.ok (Backend.systemLogger "INFO"))
      = Except.ok (Backend.systemLogger "INFO",
          some (Backend.systemLogger "INFO")) ∧
    factoryCreate (some (Backend.systemLogger "INFO")) "prometheus"
        { port := some 9000 } (Except.ok (Backend.prometheus 9000 true))
      = Except.ok (Backend.systemLogger "INFO",
          some (Backend.systemLogger "INFO")) :=
  ⟨by rfl,
   (singleton_stability "system" "prometheus" {} { port := some 9000 }
      (Except.ok (Backend.systemLogger "INFO"))
      (Except.ok (Backend.prometheus 9000 true))
      (Backend.systemLogger "INFO") (some (Backend.systemLogger "INFO"))
      (by rfl)).2⟩

/-- Embeds the default parameter of `get_observability(backend="system",
**kwargs)` in `core/observability/__init__.py` (lines 16-18). -/
def getObservabilityDefaultKind : String := "system"

/-- Embeds the backend-kind argument that `CachedTool.__init__` (line 21 of
`cached_tool.py`: `self._obs = get_observability()`) passes to the factory,
as a function of the process settings.  The call site passes NO arguments,
so the requested kind is the default `"system"` for every configuration —
`settings.observability_backend` is never read anywhere in the repository
(the crews, agents and agent factory likewise call `get_observability()`
bare). -/
def cachedToolRequestedKind (_s : Settings) : String :=
  getObservabilityDefaultKind

/-- C9 counterexample: with `settings.observability_backend = "prometheus"`,
the first acquisition of the backend by a tool requests kind `"system"`,
not the configured `"prometheus"` — the configuration field is not
consumed. -/
theorem backend_kind_config_counterexample :
    ¬ (cachedToolRequestedKind { observability_backend := "prometheus" }
        = "prometheus") := by
  decide

/-- C9 amended: the `observability_backend` settings field exists but is
never consumed; every acquisition of the process-wide backend by a tool or
crew requests the default kind `"system"` with no keyword arguments, so
with an empty singleton slot the constructed backend is the default
system-logger backend regardless of the configured kind and regardless of
what a risky backend constructor would have produced. -/
theorem backend_kind_config_amended (s : Settings)
    (attempt : Except PyExc Backend) :
    cachedToolRequestedKind s = "system" ∧
    factoryCreate none (cachedToolRequestedKind s) {} attempt
      = Except.ok (Backend.systemLogger "INFO",
          some (Backend.systemLogger "INFO")) :=
  ⟨rfl, rfl⟩

/-- The three underlying Prometheus metric kinds that
`PrometheusBackend.record_metric` can route a sample to.  The source's two
counter paths (`labels(**tags)` for names containing `"counter"`, and
`labels(operation=name, **tags)` for the default) are both `counter`. -/
inductive MetricKind where
  | counter
  | histogram
  | gauge
deriving DecidableEq, Repr

/-- Helper: does the character list start with `pat`. -/
def charsStartWith : List Char → List Char → Bool
  | [], _ => true
  | _ :: _, [] => false
  | p :: ps, c :: cs => (p == c) && charsStartWith ps cs

/-- Helper: does the character list contain `pat` as a contiguous run. -/
def charsContain (pat : List Char) : List Char → Bool
  | [] => charsStartWith pat []
  | c :: rest => charsStartWith pat (c :: rest) || charsContain pat rest

/-- Python substring membership `pat in s` (for any `s`, the empty pattern
is contained, as in Python). -/
def pyInStr (pat s : String) : Bool := charsContain pat.data s.data

/-- Embeds the name-based dispatch of `PrometheusBackend.record_metric`
(lines 66-88 of `prometheus.py`), with the metric library available.  The
source checks, in order: `'counter' in name.lower()` (counter),
`'duration' in name.lower()` (duration histogram), `'active' in
name.lower()` (active-operations gauge), else the default counter. -/
def promRouteMetric (name : String) : MetricKind :=
  let n := pyLower name
  if pyInStr "counter" n then MetricKind.counter
  else if pyInStr "duration" n then MetricKind.histogram
  else if pyInStr "active" n then MetricKind.gauge
  else MetricKind.counter

/-- The dispatch as the claim states it (for comparison with the source's
`promRouteMetric`): a name containing `"duration"` maps to the duration
histogram, a name containing `"active"` maps to the gauge, and every other
name maps to a counter — with no priority for `"counter"`. -/
def promRouteMetricClaimed (name : String) : MetricKind :=
  let n := pyLower name
  if pyInStr "duration" n then MetricKind.histogram
  else if pyInStr "active" n then MetricKind.gauge
  else MetricKind.counter

/-- C8 counterexample: the claimed dispatch disagrees with the source on
the name `"agent_counter_duration"`: it contains `"duration"`, so the
claim sends it to the duration histogram, but the source checks
`'counter' in name.lower()` FIRST and routes it to the counter. -/
theorem metric_dispatch_counterexample :
    ¬ (promRouteMetric "agent_counter_duration"
        = promRouteMetricClaimed "agent_counter_duration") := by
  decide

/-- C8 amended: `record_metric` routes by substring checks on the
lowercased name in source order — a name containing `"counter"` maps to
the counter (this check comes first and wins every tie); otherwise a name
containing `"duration"` maps to the duration histogram; otherwise a name
containing `"active"` maps to the active-operations gauge; every other
name maps to the counter (with an extra `operation=name` label). -/
theorem metric_dispatch_amended (name : String) :
    (pyInStr "counter" (pyLower name) = true →
      promRouteMetric name = MetricKind.counter) ∧
    (pyInStr "counter" (pyLower name) = false →
      pyInStr "duration" (pyLower name) = true →
      promRouteMetric name = MetricKind.histogram) ∧
    (pyInStr "counter" (pyLower name) = false →
      pyInStr "duration" (pyLower name) = false →
      pyInStr "active" (pyLower name) = true →
      promRouteMetric name = MetricKind.gauge) ∧
    (pyInStr "counter" (pyLower name) = false →
      pyInStr "duration" (pyLower name) = false →
      pyInStr "active" (pyLower name) = false →
      promRouteMetric name = MetricKind.counter) := by
  refine ⟨fun h1 => ?_, fun h1 h2 => ?_, fun h1 h2 h3 => ?_,
    fun h1 h2 h3 => ?_⟩ <;>
    simp_all [promRouteMetric]

/-- Witness for the amended C8: the duration metric emitted by the
Prometheus trace bookkeeping, `"agent_operation_duration_seconds"`,
contains `"duration"` and not `"counter"`, and routes to the histogram. -/
theorem metric_dispatch_amended_witness :
    promRouteMetric "agent_operation_duration_seconds"
      = MetricKind.histogram :=
  (metric_dispatch_amended "agent_operation_duration_seconds").2.1
    (by decide) (by decide)

/-- Helper for Python `str.replace(pat, sub)` on character lists, with a
structural fuel argument (one unit per consumed character, so
`length + 1` always suffices).  Faithful for non-empty patterns, which is
all the source uses (`'https://'`, `'http://'`, `'www.'`). -/
def charsReplaceFuel (pat sub : List Char) : Nat → List Char → List Char
  | 0, s => s
  | _ + 1, [] => []
  | fuel + 1, c :: rest =>
      if charsStartWith pat (c :: rest) then
        sub ++ charsReplaceFuel pat sub fuel (List.drop (pat.length - 1) rest)
      else
        c :: charsReplaceFuel pat sub fuel rest

/-- Python `s.replace(pat, sub)` for a non-empty `pat`. -/
def pyReplace (s pat sub : String) : String :=
  String.mk (charsReplaceFuel pat.data sub.data (s.data.length + 1) s.data)

/-- One per-branch record produced by
`KeywordSearchTool._search_single_model` (lines 40-86 of
`keyword_search_tool.py`): the Python dict with keys `model`, `found`, and
either `search_results` (success) or `error` (captured failure). -/
structure ModelResult where
  model : String
  found : Bool
  searchResults : Option String
  error : Option String
deriving DecidableEq, Repr

/-- Embeds `KeywordSearchTool._search_single_model(client, model, keyword,
target_domain)`, with the model call
(`client.chat.completions.create(...)` plus response field access) modelled
by its outcome `call`.  On success the branch lowercases the results and
the target, strips URL prefixes from the target, and reports whether
either form occurs in the results; on ANY exception the branch catches it
and returns a failure record with `found=False` and the exception's
message — the branch itself never raises. -/
def searchSingleModel (model target : String)
    (call : Except PyExc String) : ModelResult :=
  match call with
  | Except.ok searchResults =>
      let targetLower := pyLower target
      let resultsLower := pyLower searchResults
      let cleanTarget :=
        pyReplace (pyReplace (pyReplace targetLower "https://" "")
          "http://" "") "www." ""
      let found := pyInStr cleanTarget resultsLower
        || pyInStr targetLower resultsLower
      { model := model, found := found,
        searchResults := some searchResults, error := none }
  | Except.error e =>
      { model := model, found := false,
        searchResults := none, error := some e.msg }

/-- The JSON object returned by `KeywordSearchTool._search_keyword`
(lines 126-134 of `keyword_search_tool.py`). -/
structure SearchOutput where
  status : String
  keyword : String
  target : String
  consensusFound : Bool
  foundInModels : Nat
  totalModels : Nat
  modelResults : List ModelResult
deriving DecidableEq, Repr

/-- The `SEARCH_MODELS` class attribute of `KeywordSearchTool` (lines
29-34): the four models queried in parallel through OpenRouter. -/
def searchModelsList : List String :=
  ["openai/gpt-4o-mini", "google/gemini-2.5-flash-lite",
   "x-ai/grok-beta", "deepseek/deepseek-chat"]

/-- Embeds the fan-out/fan-in portion of
`KeywordSearchTool._search_keyword` (lines 110-134): run
`_search_single_model` for every model (the per-model call outcomes are
given by `calls`; `asyncio.gather` joins all branches and, because every
branch catches its own exceptions, never observes one), then aggregate:
count the branches with `found=True`, take the majority vote
(`found_count > total_models / 2`, exact over the rationals, i.e.
`total < 2 * foundCount`), and return the success JSON object carrying
every branch's record.  The client/API-key setup preceding the fan-out is
outside this claim and not modelled. -/
def searchKeyword (keyword target : String) (models : List String)
    (calls : String → Except PyExc String) : Except PyExc SearchOutput :=
  let results := models.map (fun m => searchSingleModel m target (calls m))
  let total := results.length
  let foundCount := (results.filter (fun r => r.found)).length
  let consensus := total < 2 * foundCount
  let out : SearchOutput :=
    { status := "success", keyword := keyword, target := target,
      consensusFound := consensus, foundInModels := foundCount,
      totalModels := total, modelResults := results }
  Except.ok out

/-- C10: fan-out branch failure isolation.  The aggregation is a function
of every branch's completed outcome and always succeeds: the output lists
one record per model, in order, each the image of that branch's outcome;
a branch whose model call raised contributes a captured failure record
(`found=False` with the error message) instead of propagating, and a
successful branch contributes a success record with no error field. -/
theorem fanout_branch_isolation (keyword target : String)
    (models : List String) (calls : String → Except PyExc String) :
    (∃ out, searchKeyword keyword target models calls = Except.ok out ∧
      out.status = "success" ∧
      out.modelResults.length = models.length ∧
      out.modelResults
        = models.map (fun m => searchSingleModel m target (calls m))) ∧
    (∀ m e, calls m = Except.error e →
      searchSingleModel m target (calls m)
        = { model := m, found := false,
            searchResults := none, error := some e.msg }) ∧
    (∀ m r, calls m = Except.ok r →
      (searchSingleModel m target (calls m)).error = none ∧
      (searchSingleModel m target (calls m)).searchResults = some r) := by
  refine ⟨⟨_, rfl, rfl, ?_, rfl⟩, ?_, ?_⟩
  · simp [searchKeyword]
  · intro m e he
    rw [he]
    rfl
  · intro m r hr
    rw [hr]
    exact ⟨rfl, rfl⟩

/-- Per-model call outcomes for the spec's fan-out scenario: of the four
models, `x-ai/grok-beta` raises and the other three succeed. -/
def demoCalls : String → Except PyExc String :=
  fun m =>
    if m = "x-ai/grok-beta" then
      Except.error ⟨"APIError", "rate limited"⟩
    else
      Except.ok "1. example.com - the site. 2. other.com - another site"

/-- Witness for C10 at the spec's scenario: 4 branches, 1 raises and 3
succeed; the failing branch yields a captured failure record, and the
aggregation reports 3 successful entries, 1 failed entry, and overall
success. -/
theorem fanout_branch_isolation_witness :
    searchSingleModel "x-ai/grok-beta" "example.com"
        (demoCalls "x-ai/grok-beta")
      = { model := "x-ai/grok-beta", found := false,
          searchResults := none, error := some "rate limited" } ∧
    ((searchKeyword "best crm" "example.com" searchModelsList
        demoCalls).toOption.map
        (fun out =>
          ((out.modelResults.filter (fun r => r.error.isNone)).length,
           (out.modelResults.filter (fun r => r.error.isSome)).length,
           out.status)))
      = some (3, 1, "success") :=
  ⟨(fanout_branch_isolation "best crm" "example.com" searchModelsList
      demoCalls).2.1 "x-ai/grok-beta" ⟨"APIError", "rate limited"⟩ rfl,
   by decide⟩
